import Mathlib

/-!
Verification of the ibmiotf client SDK core (src/src/ibmiotf/__init__.py):
broker address resolution, the message encoder/decoder registry, the
connect/disconnect coordination, the publish-acknowledgement tracker, the
on-disconnect callback, HTTP content-type resolution and the exception
hierarchy. Python dictionaries are embedded as association lists, Python
exceptions as an explicit error type, and the transport client (paho) calls
as an action trace.
-/

set_option autoImplicit false

namespace Ibmiotf

/-- Python exception values that the embedded code can raise or that the
spec mentions. keyError is the built-in KeyError from a failed dict lookup;
typeErrorNotCallable is the TypeError from calling a non-callable object
(None); the remaining constructors are the exception classes defined in
the module, carrying the fields their constructors store. -/
inductive PyError where
  | keyError (key : String)
  | typeErrorNotCallable
  | connectionException (reason : String)
  | configurationException (reason : String)
  | unsupportedAuthenticationMethod (method : String)
  | invalidEventException (reason : String)
  | missingMessageDecoderException (format : String)
  | missingMessageEncoderException (format : String)
  deriving DecidableEq, Repr

/-! ## Encoder/decoder registry

AbstractClient and HttpAbstractClient define character-identical
getMessageEncoderModule / setMessageEncoderModule methods over the
self._messageEncoderModules dict; one embedding covers both. The dict
is an association list from format name to codec module (type M). -/

/-- Lookup of a key in the embedded dict (first matching entry). -/
def lookupFormat {M : Type} (modules : List (String × M)) (fmt : String) : Option M :=
  match modules with
  | [] => none
  | (k, v) :: rest => if k = fmt then some v else lookupFormat rest fmt

/-- Removal of a key from the embedded dict. -/
def removeFormat {M : Type} (modules : List (String × M)) (fmt : String) : List (String × M) :=
  match modules with
  | [] => []
  | (k, v) :: rest =>
    if k = fmt then removeFormat rest fmt else (k, v) :: removeFormat rest fmt

/-- Embeds AbstractClient.getMessageEncoderModule and
HttpAbstractClient.getMessageEncoderModule (identical bodies):
`return self._messageEncoderModules[messageFormat]`. A Python dict
subscript raises KeyError naming the key when it is absent. -/
def getMessageEncoderModule {M : Type} (modules : List (String × M))
    (messageFormat : String) : Except PyError M :=
  match lookupFormat modules messageFormat with
  | some m => .ok m
  | none => .error (.keyError messageFormat)

/-- Embeds AbstractClient.setMessageEncoderModule and
HttpAbstractClient.setMessageEncoderModule (identical bodies):
`self._messageEncoderModules[messageFormat] = module`. Dict assignment
overwrites any existing entry; insertion order is abstracted away. -/
def setMessageEncoderModule {M : Type} (modules : List (String × M))
    (messageFormat : String) (m : M) : List (String × M) :=
  removeFormat modules messageFormat ++ [(messageFormat, m)]

/-- The registry obtained from the empty initial dict
(`self._messageEncoderModules = {}`) by a sequence of
setMessageEncoderModule calls. -/
def applyConfig {M : Type} (ops : List (String × M)) : List (String × M) :=
  ops.foldl (fun ms p => setMessageEncoderModule ms p.1 p.2) []

theorem lookupFormat_removeFormat_self {M : Type} (modules : List (String × M))
    (fmt : String) :
    lookupFormat (removeFormat modules fmt) fmt = none := by
  induction modules with
  | nil => simp [removeFormat, lookupFormat]
  | cons p rest ih =>
    obtain ⟨k, v⟩ := p
    by_cases hk : k = fmt <;> simp [removeFormat, lookupFormat, hk, ih]

theorem lookupFormat_removeFormat_other {M : Type} (modules : List (String × M))
    (fmt fmt' : String) (h : fmt ≠ fmt') :
    lookupFormat (removeFormat modules fmt) fmt' = lookupFormat modules fmt' := by
  have h' : fmt' ≠ fmt := fun hc => h hc.symm
  induction modules with
  | nil => simp [removeFormat]
  | cons p rest ih =>
    obtain ⟨k, v⟩ := p
    by_cases hk : k = fmt
    · have hk' : k ≠ fmt' := fun hc => h (hk ▸ hc)
      simp [removeFormat, lookupFormat, hk, hk', h, h', ih]
    · by_cases hk' : k = fmt' <;>
        simp [removeFormat, lookupFormat, hk, hk', h, h', ih]

theorem lookupFormat_append_absent {M : Type} (l l' : List (String × M))
    (fmt : String) (h : lookupFormat l fmt = none) :
    lookupFormat (l ++ l') fmt = lookupFormat l' fmt := by
  induction l with
  | nil => simp [lookupFormat]
  | cons p rest ih =>
    obtain ⟨k, v⟩ := p
    by_cases hk : k = fmt
    · simp [lookupFormat, hk] at h
    · simp [lookupFormat, hk] at h ⊢
      exact ih h

theorem lookupFormat_set_self {M : Type} (modules : List (String × M))
    (fmt : String) (m : M) :
    lookupFormat (setMessageEncoderModule modules fmt m) fmt = some m := by
  have hrm : lookupFormat (removeFormat modules fmt) fmt = none :=
    lookupFormat_removeFormat_self modules fmt
  simp [setMessageEncoderModule, lookupFormat_append_absent _ _ _ hrm, lookupFormat]

theorem lookupFormat_append_present {M : Type} (l l' : List (String × M))
    (fmt : String) (v : M) (h : lookupFormat l fmt = some v) :
    lookupFormat (l ++ l') fmt = some v := by
  induction l with
  | nil => simp [lookupFormat] at h
  | cons p rest ih =>
    obtain ⟨k, w⟩ := p
    by_cases hk : k = fmt <;> simp [lookupFormat, hk] at h ⊢
    · exact h
    · exact ih h

theorem lookupFormat_set_other {M : Type} (modules : List (String × M))
    (fmt fmt' : String) (m : M) (h : fmt ≠ fmt') :
    lookupFormat (setMessageEncoderModule modules fmt m) fmt' =
      lookupFormat modules fmt' := by
  rw [setMessageEncoderModule]
  cases hl : lookupFormat (removeFormat modules fmt) fmt' with
  | none =>
    rw [lookupFormat_append_absent _ _ _ hl]
    rw [lookupFormat_removeFormat_other _ _ _ h] at hl
    simp [lookupFormat, h, hl]
  | some v =>
    rw [lookupFormat_append_present _ _ _ _ hl]
    rw [lookupFormat_removeFormat_other _ _ _ h] at hl
    exact hl.symm

theorem lookupFormat_applyConfig_absent {M : Type} (ops : List (String × M))
    (fmt : String) (h : ∀ p ∈ ops, p.1 ≠ fmt) :
    lookupFormat (applyConfig ops) fmt = none := by
  suffices h' : ∀ acc : List (String × M), lookupFormat acc fmt = none →
      lookupFormat (ops.foldl (fun ms p => setMessageEncoderModule ms p.1 p.2) acc) fmt = none by
    exact h' [] rfl
  induction ops with
  | nil => intro acc hacc; simpa using hacc
  | cons p rest ih =>
    intro acc hacc
    have hp : p.1 ≠ fmt := h p (List.mem_cons_self p rest)
    have hrest : ∀ q ∈ rest, q.1 ≠ fmt := fun q hq => h q (List.mem_cons_of_mem p hq)
    have := ih hrest (setMessageEncoderModule acc p.1 p.2)
      (by rw [lookupFormat_set_other acc p.1 fmt p.2 hp]; exact hacc)
    simpa [List.foldl] using this

/-! ## Broker address resolution -/

/-- Python truthiness of an optional string argument: None and the empty
string are falsy, every other string is truthy. -/
def pyTruthy (s : Option String) : Bool :=
  match s with
  | none => false
  | some str => str ≠ ""

/-- The message raised by the guard in _getBrokerAddress. -/
def brokerConfigErrorReason : String :=
  "No full broker URL given, so both domain and organisation must be specified"

/-- Embeds _getBrokerAddress: raises ConfigurationException when no
truthy completeBrokerUrl is given and domain or orgId is missing;
otherwise returns completeBrokerUrl when truthy, else
orgId + ".messaging." + domain. -/
def getBrokerAddress (domain orgId completeBrokerUrl : Option String) :
    Except PyError String :=
  if !pyTruthy completeBrokerUrl && (!pyTruthy domain || !pyTruthy orgId) then
    .error (.configurationException brokerConfigErrorReason)
  else if pyTruthy completeBrokerUrl then
    .ok (completeBrokerUrl.getD "")
  else
    .ok (orgId.getD "" ++ ".messaging." ++ domain.getD "")

/-! ## HTTP content-type resolution -/

/-- Embeds HttpAbstractClient.getContentType: the default content type is
"application/json"; "text", "xml" and "bin" select their specific types,
every other format (the else branch, including "json") yields the
default. -/
def getContentType (dataFormat : String) : String :=
  if dataFormat = "text" then "text/plain; charset=utf-8"
  else if dataFormat = "xml" then "application/xml"
  else if dataFormat = "bin" then "application/octet-stream"
  else "application/json"

/-! ## Publish acknowledgement tracker

The dict self._onPublishCallbacks maps a message id to either a registered
completion callback or the Python None sentinel stored when the paho
acknowledgement arrived first. Callbacks are identified by a Nat id; an
invocation appends the id to a log so exactly-once delivery is
observable. All of on_publish runs under self._messagesLock, so the whole
call is a single atomic step. -/

/-- A value stored in the _onPublishCallbacks dict: a registered callback
or the None sentinel. -/
inductive CallbackSlot where
  | callback (cb : Nat)
  | sentinel
  deriving DecidableEq, Repr

/-- Lookup of a message id in the callback dict. -/
def lookupMid (r : List (Nat × CallbackSlot)) (mid : Nat) : Option CallbackSlot :=
  match r with
  | [] => none
  | (k, v) :: rest => if k = mid then some v else lookupMid rest mid

/-- Removal of a message id from the callback dict (del statement). -/
def removeMid (r : List (Nat × CallbackSlot)) (mid : Nat) : List (Nat × CallbackSlot) :=
  match r with
  | [] => []
  | (k, v) :: rest =>
    if k = mid then removeMid rest mid else (k, v) :: removeMid rest mid

/-- Dict assignment for the callback dict; insertion order is
abstracted away. -/
def storeMid (r : List (Nat × CallbackSlot)) (mid : Nat) (v : CallbackSlot) :
    List (Nat × CallbackSlot) :=
  removeMid r mid ++ [(mid, v)]

/-- The state touched by on_publish: the lifetime publish counter
self.messages, the callback dict self._onPublishCallbacks, and the log of
callback invocations performed so far. -/
structure TrackerState where
  messages : Nat
  onPublishCallbacks : List (Nat × CallbackSlot)
  fired : List Nat
  deriving DecidableEq, Repr

/-- Embeds AbstractClient.on_publish. Under self._messagesLock it
increments self.messages; if mid is a key of self._onPublishCallbacks it
reads the stored value, deletes the entry and calls the value — calling a
registered callback appends to the invocation log, calling the None
sentinel raises TypeError (None is not callable); otherwise it stores
None under mid. The second component is the exception the call raises,
if any. -/
def on_publish (s : TrackerState) (mid : Nat) : TrackerState × Option PyError :=
  let msgs := s.messages + 1
  match lookupMid s.onPublishCallbacks mid with
  | some (.callback cb) =>
    (⟨msgs, removeMid s.onPublishCallbacks mid, s.fired ++ [cb]⟩, none)
  | some .sentinel =>
    (⟨msgs, removeMid s.onPublishCallbacks mid, s.fired⟩, some .typeErrorNotCallable)
  | none =>
    (⟨msgs, storeMid s.onPublishCallbacks mid .sentinel, s.fired⟩, none)

/-- Modelled from the spec: the caller-side registration step
(registerOrInvoke of spec section 4.2) lives in the publishing clients,
which are not part of src/. Per the spec, when the identifier is present
as the already-acknowledged sentinel the callback is invoked immediately
and the sentinel removed; otherwise the callback is stored under the
identifier. -/
def registerOrInvoke (s : TrackerState) (mid cb : Nat) : TrackerState :=
  match lookupMid s.onPublishCallbacks mid with
  | some .sentinel =>
    ⟨s.messages, removeMid s.onPublishCallbacks mid, s.fired ++ [cb]⟩
  | _ =>
    ⟨s.messages, storeMid s.onPublishCallbacks mid (.callback cb), s.fired⟩

theorem lookupMid_removeMid_self (r : List (Nat × CallbackSlot)) (mid : Nat) :
    lookupMid (removeMid r mid) mid = none := by
  induction r with
  | nil => simp [removeMid, lookupMid]
  | cons p rest ih =>
    obtain ⟨k, v⟩ := p
    by_cases hk : k = mid <;> simp [removeMid, lookupMid, hk, ih]

theorem lookupMid_append_absent (l l' : List (Nat × CallbackSlot))
    (mid : Nat) (h : lookupMid l mid = none) :
    lookupMid (l ++ l') mid = lookupMid l' mid := by
  induction l with
  | nil => simp [lookupMid]
  | cons p rest ih =>
    obtain ⟨k, v⟩ := p
    by_cases hk : k = mid
    · simp [lookupMid, hk] at h
    · simp [lookupMid, hk] at h ⊢
      exact ih h

theorem lookupMid_store_self (r : List (Nat × CallbackSlot)) (mid : Nat)
    (v : CallbackSlot) :
    lookupMid (storeMid r mid v) mid = some v := by
  have hrm : lookupMid (removeMid r mid) mid = none :=
    lookupMid_removeMid_self r mid
  simp [storeMid, lookupMid_append_absent _ _ _ hrm, lookupMid]

/-! ## Connection coordinator

connect() and disconnect() are embedded as the sequence of calls they
make on the paho transport client together with the exception they
raise. The environment behaviour (how client.connect and the 30-second
connectEvent.wait turn out) is a parameter. logger calls are not part of
the trace. -/

/-- One call made on the underlying paho client or the connect event. -/
inductive Action where
  | eventClear
  | connectCall
  | loopStart
  | waitConnect (timeoutSeconds : Nat)
  | loopStop
  | disconnectCall
  deriving DecidableEq, Repr

/-- The environment behaviours connect() distinguishes: client.connect
raises a socket.error with some detail string; the connect call and
loop start succeed but connectEvent.wait(timeout=30) returns False; or
the wait is signalled in time. -/
inductive ConnectBehavior where
  | socketError (detail : String)
  | timeout
  | signaled
  deriving DecidableEq, Repr

/-- Embeds AbstractClient.connect: clears connectEvent, calls
client.connect then client.loop_start, then waits 30 seconds on
connectEvent. On timeout it calls client.loop_stop and raises
ConnectionException naming the address; when client.connect raises
socket.error the except clause calls client.loop_stop and raises
ConnectionException naming the address and the error detail.
logAndRaiseException logs at critical level and re-raises, which the
except socket.error clause does not catch. -/
def connect (address : String) (behavior : ConnectBehavior) :
    List Action × Option PyError :=
  match behavior with
  | .socketError detail =>
    ([.eventClear, .connectCall, .loopStop],
     some (.connectionException
       ("Failed to connect to IBM Watson IoT Platform: " ++ address ++ " - " ++ detail)))
  | .timeout =>
    ([.eventClear, .connectCall, .loopStart, .waitConnect 30, .loopStop],
     some (.connectionException
       ("Operation timed out connecting to IBM Watson IoT Platform: " ++ address)))
  | .signaled =>
    ([.eventClear, .connectCall, .loopStart, .waitConnect 30], none)

/-- Embeds AbstractClient.disconnect: client.disconnect() followed by
client.loop_stop(); the method raises nothing. -/
def disconnect : List Action :=
  [.disconnectCall, .loopStop]

/-! ## On-disconnect callback -/

/-- Logging severities used by the embedded methods. -/
inductive LogLevel where
  | debug
  | info
  | warning
  | error
  | critical
  deriving DecidableEq, Repr

/-- Embeds AbstractClient.on_disconnect: the rc parameter selects the
level of the diagnostic line — error when rc == 1, info otherwise — and
then stats() runs, which only logs at debug level. The method never
touches self.connectEvent, so the returned event flag is the input
flag. The result is (connectEvent set?, diagnostic log level). -/
def on_disconnect (connectEventIsSet : Bool) (rc : Nat) : Bool × LogLevel :=
  (connectEventIsSet, if rc = 1 then .error else .info)

/-! ## Exception hierarchy -/

/-- The exception classes defined in the module, plus the Python base
class Exception they ultimately derive from. -/
inductive ExcClass where
  | exception
  | connectionException
  | configurationException
  | unsupportedAuthenticationMethod
  | invalidEventException
  | missingMessageDecoderException
  | missingMessageEncoderException
  | apiException
  deriving DecidableEq, Repr

/-- The direct base class of each class, as written in the source:
ConnectionException(Exception), ConfigurationException(ConnectionException),
UnsupportedAuthenticationMethod(ConnectionException), and the remaining
classes derive directly from Exception. -/
def superclass : ExcClass → Option ExcClass
  | .exception => none
  | .connectionException => some .exception
  | .configurationException => some .connectionException
  | .unsupportedAuthenticationMethod => some .connectionException
  | .invalidEventException => some .exception
  | .missingMessageDecoderException => some .exception
  | .missingMessageEncoderException => some .exception
  | .apiException => some .exception

/-- Reflexive-transitive closure of superclass, computed with fuel (the
hierarchy has depth at most 2). -/
def isSubclassOfAux : Nat → ExcClass → ExcClass → Bool
  | 0, _, _ => false
  | fuel + 1, c, target =>
    c == target ||
      (match superclass c with
       | some p => isSubclassOfAux fuel p target
       | none => false)

/-- c is target or derives (transitively) from target. -/
def isSubclassOf (c target : ExcClass) : Bool :=
  isSubclassOfAux 8 c target

/-- Python except-clause semantics: a handler for handlerClass catches a
raised exception exactly when the raised class is a subclass of the
handler's class. -/
def catchesExc (handlerClass raisedClass : ExcClass) : Bool :=
  isSubclassOf raisedClass handlerClass

/-! ## Claim theorems -/

/-- C1 counterexample: the claim says looking up an unregistered format
fails with MissingMessageDecoderException or MissingMessageEncoderException
naming the format. On the empty registry (nothing ever registered) the
lookup of "json" raises KeyError "json", which is neither of those
exceptions. -/
theorem C1_counterexample :
    getMessageEncoderModule ([] : List (String × Nat)) "json" =
      .error (.keyError "json") ∧
    PyError.keyError "json" ≠ PyError.missingMessageEncoderException "json" ∧
    PyError.keyError "json" ≠ PyError.missingMessageDecoderException "json" := by
  refine ⟨rfl, by decide, by decide⟩

/-- C1 (amended): for every format never registered via
setMessageEncoderModule (on either client; the two getters are
identical), getMessageEncoderModule fails — but with the built-in
KeyError naming that format, not with the missing-decoder or
missing-encoder exception. -/
theorem C1_unregistered_lookup_raises_keyerror {M : Type}
    (ops : List (String × M)) (fmt : String) (h : ∀ p ∈ ops, p.1 ≠ fmt) :
    getMessageEncoderModule (applyConfig ops) fmt = .error (.keyError fmt) := by
  simp [getMessageEncoderModule, lookupFormat_applyConfig_absent ops fmt h]

/-- C1 witness: a registry configured only with "text" raises
KeyError "json" when "json" is looked up. -/
theorem C1_unregistered_lookup_raises_keyerror_witness :
    getMessageEncoderModule (applyConfig [("text", 1)]) "json" =
      .error (.keyError "json") :=
  C1_unregistered_lookup_raises_keyerror [("text", 1)] "json" (by decide)

/-- C2: for a publish identifier with no pending entry, both orderings —
register-then-acknowledge and acknowledge-then-register — invoke the
registered callback exactly once (the invocation log grows by exactly
that one callback), raise nothing, and leave no residual entry for the
identifier in the registry. -/
theorem C2_publish_callback_exactly_once (s : TrackerState) (mid cb : Nat)
    (h : lookupMid s.onPublishCallbacks mid = none) :
    ((on_publish (registerOrInvoke s mid cb) mid).1.fired = s.fired ++ [cb] ∧
     (on_publish (registerOrInvoke s mid cb) mid).2 = none ∧
     lookupMid (on_publish (registerOrInvoke s mid cb) mid).1.onPublishCallbacks mid
       = none) ∧
    ((on_publish s mid).2 = none ∧
     (registerOrInvoke (on_publish s mid).1 mid cb).fired = s.fired ++ [cb] ∧
     lookupMid (registerOrInvoke (on_publish s mid).1 mid cb).onPublishCallbacks mid
       = none) := by
  constructor
  · have h1 : registerOrInvoke s mid cb =
        ⟨s.messages, storeMid s.onPublishCallbacks mid (.callback cb), s.fired⟩ := by
      simp [registerOrInvoke, h]
    rw [h1]
    simp [on_publish, lookupMid_store_self, lookupMid_removeMid_self]
  · have h2 : on_publish s mid =
        (⟨s.messages + 1, storeMid s.onPublishCallbacks mid .sentinel, s.fired⟩, none) := by
      simp [on_publish, h]
    rw [h2]
    simp [registerOrInvoke, lookupMid_store_self, lookupMid_removeMid_self]

/-- C2 witness: instantiated at the empty tracker state, identifier 1 and
callback 7. -/
theorem C2_publish_callback_exactly_once_witness :
    ((on_publish (registerOrInvoke ⟨0, [], []⟩ 1 7) 1).1.fired = [7] ∧
     (on_publish (registerOrInvoke ⟨0, [], []⟩ 1 7) 1).2 = none ∧
     lookupMid (on_publish (registerOrInvoke ⟨0, [], []⟩ 1 7) 1).1.onPublishCallbacks 1
       = none) ∧
    ((on_publish ⟨0, [], []⟩ 1).2 = none ∧
     (registerOrInvoke (on_publish ⟨0, [], []⟩ 1).1 1 7).fired = [7] ∧
     lookupMid (registerOrInvoke (on_publish ⟨0, [], []⟩ 1).1 1 7).onPublishCallbacks 1
       = none) :=
  C2_publish_callback_exactly_once ⟨0, [], []⟩ 1 7 rfl

/-- C3 counterexample: with the connect event set and disconnect reason
code 2 (non-zero, not caller-initiated), on_disconnect leaves the event
set — the claim says it is cleared — and logs at info level — the claim
says error level for every non-zero code. -/
theorem C3_counterexample :
    (on_disconnect true 2).1 = true ∧ (on_disconnect true 2).2 = LogLevel.info := by
  decide

/-- C3 (amended): on_disconnect never modifies the connect event (connect
itself clears it at the start of each attempt), and it logs at error
level exactly when the reason code equals 1, at info level otherwise —
including caller-initiated rc = 0 and every other non-zero code. -/
theorem C3_on_disconnect_amended (b : Bool) (rc : Nat) :
    (on_disconnect b rc).1 = b ∧
    ((on_disconnect b rc).2 = LogLevel.error ↔ rc = 1) ∧
    ((on_disconnect b rc).2 = LogLevel.info ↔ rc ≠ 1) := by
  by_cases hrc : rc = 1 <;> simp [on_disconnect, hrc]

/-- C4: whenever connect fails — wait timeout or socket error during the
initial connect call — the last transport action is loop_stop (so the
background loop is stopped before the error is surfaced), and the raised
error is a ConnectionException embedding the target address, plus the
error detail in the socket-error case. -/
theorem C4_connect_failure (address : String) (behavior : ConnectBehavior)
    (e : PyError) (h : (connect address behavior).2 = some e) :
    (connect address behavior).1.getLast? = some Action.loopStop ∧
    Action.loopStop ∈ (connect address behavior).1 ∧
    (∃ reason, e = .connectionException reason) ∧
    (behavior = .timeout →
      e = .connectionException
        ("Operation timed out connecting to IBM Watson IoT Platform: " ++ address)) ∧
    (∀ d, behavior = .socketError d →
      e = .connectionException
        ("Failed to connect to IBM Watson IoT Platform: " ++ address ++ " - " ++ d)) := by
  cases behavior with
  | socketError detail =>
    simp [connect] at h
    subst h
    refine ⟨rfl, by simp [connect], ⟨_, rfl⟩, by simp, ?_⟩
    intro d hd
    simp [connect] at hd
    simp [hd]
  | timeout =>
    simp [connect] at h
    subst h
    exact ⟨rfl, by simp [connect], ⟨_, rfl⟩, fun _ => rfl, by simp⟩
  | signaled => simp [connect] at h

/-- C4 witness: instantiated at the timeout behaviour against address
org1.messaging.x.com. -/
theorem C4_connect_failure_witness :
    (connect "org1.messaging.x.com" ConnectBehavior.timeout).1.getLast?
      = some Action.loopStop ∧
    Action.loopStop ∈ (connect "org1.messaging.x.com" ConnectBehavior.timeout).1 := by
  have hc := C4_connect_failure "org1.messaging.x.com" ConnectBehavior.timeout
    (.connectionException
      ("Operation timed out connecting to IBM Watson IoT Platform: "
        ++ "org1.messaging.x.com")) rfl
  exact ⟨hc.1, hc.2.1⟩

/-- C5: broker address resolution — with no explicit URL and truthy
domain d and organization o the address is o ++ ".messaging." ++ d; a
truthy explicit URL is returned with domain and organization ignored;
when neither a truthy URL nor both a truthy domain and organization are
given, a ConfigurationException is raised. -/
theorem C5_broker_address_resolution :
    (∀ d o : String, d ≠ "" → o ≠ "" →
      getBrokerAddress (some d) (some o) none = .ok (o ++ ".messaging." ++ d)) ∧
    (∀ domain orgId : Option String, ∀ u : String, u ≠ "" →
      getBrokerAddress domain orgId (some u) = .ok u) ∧
    (∀ domain orgId url : Option String, pyTruthy url = false →
      (pyTruthy domain = false ∨ pyTruthy orgId = false) →
      getBrokerAddress domain orgId url =
        .error (.configurationException brokerConfigErrorReason)) := by
  refine ⟨?_, ?_, ?_⟩
  · intro d o hd ho
    simp [getBrokerAddress, pyTruthy, hd, ho]
  · intro domain orgId u hu
    simp [getBrokerAddress, pyTruthy, hu]
  · intro domain orgId url hurl hdo
    rcases hdo with hd | ho
    · simp [getBrokerAddress, hurl, hd]
    · simp [getBrokerAddress, hurl, ho]

/-- C5 witness: domain x.com and organization org1 resolve to
org1.messaging.x.com; an explicit URL wins; missing domain raises the
configuration error. -/
theorem C5_broker_address_resolution_witness :
    getBrokerAddress (some "x.com") (some "org1") none =
      .ok ("org1" ++ ".messaging." ++ "x.com") ∧
    getBrokerAddress (some "x.com") (some "org1") (some "broker.example") =
      .ok "broker.example" ∧
    getBrokerAddress none (some "org1") none =
      .error (.configurationException brokerConfigErrorReason) :=
  ⟨C5_broker_address_resolution.1 "x.com" "org1" (by decide) (by decide),
   C5_broker_address_resolution.2.1 (some "x.com") (some "org1") "broker.example"
     (by decide),
   C5_broker_address_resolution.2.2 none (some "org1") none rfl (Or.inl rfl)⟩

/-- C6: getContentType is total and returns application/json for "json",
the three specific types for "text", "xml" and "bin", and
application/json for every other format. -/
theorem C6_content_type_resolution :
    getContentType "json" = "application/json" ∧
    getContentType "text" = "text/plain; charset=utf-8" ∧
    getContentType "xml" = "application/xml" ∧
    getContentType "bin" = "application/octet-stream" ∧
    (∀ s : String, s ≠ "text" → s ≠ "xml" → s ≠ "bin" →
      getContentType s = "application/json") := by
  refine ⟨by decide, by decide, by decide, by decide, ?_⟩
  intro s h1 h2 h3
  simp [getContentType, h1, h2, h3]

/-- C6 witness: an unknown format resolves to the default. -/
theorem C6_content_type_resolution_witness :
    getContentType "avro" = "application/json" :=
  C6_content_type_resolution.2.2.2.2 "avro" (by decide) (by decide) (by decide)

/-- C7 counterexample: when the entry for identifier 5 is the
already-acknowledged sentinel, no callback is registered, so the claim
requires a sentinel to be (re)stored under 5; instead on_publish removes
the entry and raises TypeError from attempting to invoke the sentinel. -/
theorem C7_counterexample :
    lookupMid (on_publish ⟨0, [(5, CallbackSlot.sentinel)], []⟩ 5).1.onPublishCallbacks 5
      = none ∧
    (on_publish ⟨0, [(5, CallbackSlot.sentinel)], []⟩ 5).2
      = some PyError.typeErrorNotCallable := by
  decide

/-- C7 (amended): every on_publish call increments the lifetime counter
by exactly one and then branches on dict membership, not on having a
genuine callback: a registered callback is removed and invoked; a
sentinel entry is also removed and its invocation raises TypeError; only
when no entry at all is present is the sentinel stored. -/
theorem C7_on_publish_behavior (s : TrackerState) (mid : Nat) :
    (on_publish s mid).1.messages = s.messages + 1 ∧
    (∀ cb, lookupMid s.onPublishCallbacks mid = some (.callback cb) →
      (on_publish s mid).1.fired = s.fired ++ [cb] ∧
      lookupMid (on_publish s mid).1.onPublishCallbacks mid = none ∧
      (on_publish s mid).2 = none) ∧
    (lookupMid s.onPublishCallbacks mid = some .sentinel →
      lookupMid (on_publish s mid).1.onPublishCallbacks mid = none ∧
      (on_publish s mid).2 = some .typeErrorNotCallable ∧
      (on_publish s mid).1.fired = s.fired) ∧
    (lookupMid s.onPublishCallbacks mid = none →
      lookupMid (on_publish s mid).1.onPublishCallbacks mid = some .sentinel ∧
      (on_publish s mid).2 = none ∧
      (on_publish s mid).1.fired = s.fired) := by
  cases hl : lookupMid s.onPublishCallbacks mid with
  | none =>
    simp [on_publish, hl, lookupMid_store_self]
  | some slot =>
    cases slot with
    | callback cb =>
      simp [on_publish, hl, lookupMid_removeMid_self]
    | sentinel =>
      simp [on_publish, hl, lookupMid_removeMid_self]

/-- C7 witness: instantiated at a state holding callback 9 under
identifier 3. -/
theorem C7_on_publish_behavior_witness :
    (on_publish ⟨0, [(3, CallbackSlot.callback 9)], []⟩ 3).1.messages = 0 + 1 ∧
    (on_publish ⟨0, [(3, CallbackSlot.callback 9)], []⟩ 3).1.fired = [9] ∧
    lookupMid
      (on_publish ⟨0, [(3, CallbackSlot.callback 9)], []⟩ 3).1.onPublishCallbacks 3
      = none :=
  ⟨(C7_on_publish_behavior ⟨0, [(3, CallbackSlot.callback 9)], []⟩ 3).1,
   ((C7_on_publish_behavior ⟨0, [(3, CallbackSlot.callback 9)], []⟩ 3).2.1 9 rfl).1,
   ((C7_on_publish_behavior ⟨0, [(3, CallbackSlot.callback 9)], []⟩ 3).2.1 9 rfl).2.1⟩

/-- C8: disconnect first instructs the transport to close the connection
and then stops its processing loop; the loop-stop step is always
present, strictly after the disconnect call. -/
theorem C8_disconnect_then_loop_stop :
    Action.disconnectCall ∈ disconnect ∧
    Action.loopStop ∈ disconnect ∧
    disconnect.indexOf Action.disconnectCall < disconnect.indexOf Action.loopStop := by
  decide

/-- C9: when the acknowledgement for an identifier fires twice with no
registration in between, the first call stores the None sentinel and the
second removes that sentinel and attempts to invoke it, raising
TypeError — the second firing fails instead of being a no-op (and fires
no callback). -/
theorem C9_double_ack_raises (s : TrackerState) (mid : Nat)
    (h : lookupMid s.onPublishCallbacks mid = none) :
    (on_publish s mid).2 = none ∧
    lookupMid (on_publish s mid).1.onPublishCallbacks mid = some .sentinel ∧
    (on_publish (on_publish s mid).1 mid).2 = some .typeErrorNotCallable ∧
    lookupMid (on_publish (on_publish s mid).1 mid).1.onPublishCallbacks mid = none ∧
    (on_publish (on_publish s mid).1 mid).1.fired = s.fired := by
  have h2 : on_publish s mid =
      (⟨s.messages + 1, storeMid s.onPublishCallbacks mid .sentinel, s.fired⟩, none) := by
    simp [on_publish, h]
  rw [h2]
  simp [on_publish, lookupMid_store_self, lookupMid_removeMid_self]

/-- C9 witness: instantiated at the empty tracker state and
identifier 4. -/
theorem C9_double_ack_raises_witness :
    (on_publish ⟨0, [], []⟩ 4).2 = none ∧
    lookupMid (on_publish ⟨0, [], []⟩ 4).1.onPublishCallbacks 4
      = some CallbackSlot.sentinel ∧
    (on_publish (on_publish ⟨0, [], []⟩ 4).1 4).2
      = some PyError.typeErrorNotCallable ∧
    lookupMid (on_publish (on_publish ⟨0, [], []⟩ 4).1 4).1.onPublishCallbacks 4
      = none ∧
    (on_publish (on_publish ⟨0, [], []⟩ 4).1 4).1.fired = [] :=
  C9_double_ack_raises ⟨0, [], []⟩ 4 rfl

/-- C10: ConfigurationException and UnsupportedAuthenticationMethod both
derive from ConnectionException, so an except clause for the generic
connection failure also catches those two kinds. -/
theorem C10_config_auth_subclass_connection :
    isSubclassOf .configurationException .connectionException = true ∧
    isSubclassOf .unsupportedAuthenticationMethod .connectionException = true ∧
    catchesExc .connectionException .configurationException = true ∧
    catchesExc .connectionException .unsupportedAuthenticationMethod = true := by
  decide

end Ibmiotf
